import Mathlib

/-!
Verification of the reconciliation core of terraform-provider-redpanda.

The Go sources are shallowly embedded: Terraform framework values
(`types.String`, `types.Bool`, `types.List`, `types.Map`) become `Option`s
over plain Lean data, where `none` models the Terraform null value; Go
slices become `Option (List _)`, where `none` models the nil slice (Go
distinguishes nil slices from allocated empty slices); Go errors become
their message strings; the gRPC client consumed by the operation poller
becomes an explicit fetch oracle, and wall-clock time an explicit elapsed
counter threaded through the loop, advancing by the fetch latency and the
fixed sleep interval.
-/

/-- Terraform `types.String`: `none` is the null string value. -/
abbrev TFString := Option String

/-- Terraform `types.Bool`: `none` is the null bool value. -/
abbrev TFBool := Option Bool

/-- Terraform `types.List` of strings: `none` is the null list value. -/
abbrev TFList := Option (List String)

/-- Terraform `types.Map` of strings: `none` is the null map value. -/
abbrev TFMap := Option (List (String × String))

/-- Go slice of `α`: `none` is the nil slice, `some xs` an allocated slice. -/
abbrev GoSlice (α : Type) := Option (List α)

/-- Terraform `ValueString()`: the value, or `""` for null. -/
def valueString (s : TFString) : String := s.getD ""

/-- Terraform `ValueBool()`: the value, or `false` for null. -/
def valueBool (b : TFBool) : Bool := b.getD false

/-- Go `len` of a slice: a nil slice has length zero. -/
def goLen {α : Type} (s : GoSlice α) : Nat := (s.getD []).length

/-- Go `append` of one element: appending to a nil slice allocates. -/
def goAppend {α : Type} (s : GoSlice α) (a : α) : GoSlice α :=
  some (s.getD [] ++ [a])

/-- Character-list test that `sub` starts the list `s`, as Go's prefix scan inside `strings.Contains`. -/
def startsWithChars : List Char → List Char → Bool
  | [], _ => true
  | _ :: _, [] => false
  | a :: as, b :: bs => a == b && startsWithChars as bs

/-- Character-list substring containment, as computed by Go's `strings.Contains`. -/
def containsChars : List Char → List Char → Bool
  | [], sub => sub.isEmpty
  | a :: rest, sub => startsWithChars sub (a :: rest) || containsChars rest sub

/-- Go `strings.Contains s sub`. -/
def goContains (s sub : String) : Bool := containsChars s.data sub.data

/-- Mathematical substring relation used to state properties of `goContains`. -/
def IsSubstringOf (sub s : String) : Prop :=
  ∃ pre post : String, s = pre ++ sub ++ post

/-- Go `strings.Trim s cutset` for a one-character cutset: drop every leading and trailing `c`. -/
def trimChar (c : Char) (l : List Char) : List Char :=
  ((l.dropWhile (fun a => a = c)).reverse.dropWhile (fun a => a = c)).reverse

/-- Go `strings.Trim(s, "\"")` at the `String` level. -/
def trimQuotes (s : String) : String := String.mk (trimChar '"' s.data)

/-- Rendering of a Terraform string value by its `String()` method: the value surrounded by quotes. -/
def renderQuoted (s : String) : String := "\"" ++ s ++ "\""

/-- From part_003 `utils.IsNotFound`: the error (modelled by its message, as produced by
`err.Error()`) is classified not-found when its message contains `"not found"`,
`"NotFound"` or `"404"`; plain substring matching, no structured code inspection. -/
def IsNotFound (msg : String) : Bool :=
  if goContains msg "not found" || goContains msg "NotFound" || goContains msg "404" then
    true
  else
    false

/-- From part_003 `utils.TypeListToStringSlice`: build a string slice by appending the
quote-trimmed rendering of each element of the list; a null list has no elements, and the
accumulator starts as the nil slice. -/
def TypeListToStringSlice (t : TFList) : GoSlice String :=
  (t.getD []).foldl (fun s v => goAppend s (trimQuotes (renderQuoted v))) none

/-- Modelled from the spec: `utils.StringSliceToTypeList` is not under src/ (only its
callers in cluster.go are). Following the spec's account of the read path (section 4.1:
unset lists on the user side versus the backend's concrete collections), it converts a
backend slice to a Terraform list, a nil slice becoming the null list and an allocated
slice an explicit list of its elements. -/
def StringSliceToTypeList (s : GoSlice String) : TFList :=
  match s with
  | none => none
  | some xs => some xs

/-- Proto enum `cloudv1beta1.Operation_State`. -/
inductive OpState where
  | unspecified
  | pending
  | running
  | completed
  | failed
deriving DecidableEq, Repr

/-- Proto error payload carried by an operation: only the message is inspected by the poller. -/
structure OpError where
  message : String
deriving DecidableEq, Repr

/-- Proto `cloudv1beta1.Operation`, the fields read by the poller. -/
structure Operation where
  id : String
  state : OpState
  error : Option OpError
deriving DecidableEq, Repr

/-- From part_003 `utils.CheckOpsState`: terminal when the state is COMPLETED or FAILED. -/
def CheckOpsState (op : Operation) : Bool :=
  match op.state with
  | OpState.completed => true
  | OpState.failed => true
  | _ => false

/-- Result of `utils.AreWeDoneYet`: `ok` is the nil error return, the other constructors
carry the message of the non-nil error returned. -/
inductive PollResult where
  | ok
  | opFailed (msg : String)
  | fetchError (msg : String)
  | timeout
deriving DecidableEq, Repr

/-- From part_003 `utils.AreWeDoneYet`, the handling of a terminal re-fetched operation
inside the polling loop, transcribed exactly: with a non-nil error whose message is NOT
classified not-found the loop returns nil, otherwise it returns the operation-failed
error; with a nil error it returns nil. -/
def loopTerminalResult (o : Operation) : PollResult :=
  match o.error with
  | some e =>
    if !IsNotFound e.message then PollResult.ok
    else PollResult.opFailed ("operation failed: " ++ e.message)
  | none => PollResult.ok

/-- Fixed sleep between polls, from part_003 `time.Sleep(10 * time.Second)`, in seconds. -/
def sleepInterval : Nat := 10

/-- The polling loop of part_003 `utils.AreWeDoneYet`. `fetch k` is the k-th
`client.GetOperation` call (always issued with `op.GetId()`), returning the operation or
a transport error message; `latency k` is the wall-clock duration of that call in
seconds; `elapsed` is `time.Since(startTime)` before the k-th call; `timeout` is in
seconds. The result pairs the return value with the number of `GetOperation` calls
issued; `none` means the fuel ran out before the loop returned (the Go loop is
unbounded). -/
def pollLoop (fetch : Nat → Except String Operation) (latency : Nat → Nat)
    (timeout : Nat) : Nat → Nat → Nat → Option (PollResult × Nat)
  | 0, _, _ => none
  | fuel + 1, k, elapsed =>
    match fetch k with
    | Except.error e => some (PollResult.fetchError e, k + 1)
    | Except.ok o =>
      let elapsedAfter := elapsed + latency k
      if CheckOpsState o then some (loopTerminalResult o, k + 1)
      else if elapsedAfter > timeout then some (PollResult.timeout, k + 1)
      else pollLoop fetch latency timeout fuel (k + 1) (elapsedAfter + sleepInterval)

/-- From part_003 `utils.AreWeDoneYet`: if the operation passed in is already terminal,
resolve from its own error payload without any `GetOperation` call (call count 0);
otherwise take `startTime` and enter the polling loop. -/
def AreWeDoneYet (op : Operation) (timeout : Nat)
    (fetch : Nat → Except String Operation) (latency : Nat → Nat) (fuel : Nat) :
    Option (PollResult × Nat) :=
  if CheckOpsState op then
    match op.error with
    | some e => some (PollResult.opFailed ("operation failed: " ++ e.message), 0)
    | none => some (PollResult.ok, 0)
  else
    pollLoop fetch latency timeout fuel 0 0

/-- From part_002 `Redpanda.Configure`: resolution of the client id from the configured
value and the `CLIENT_ID` environment variable, with the diagnostic added in the default
case of the switch. Returns the resolved value and the diagnostics added, as
summary-detail pairs. -/
def resolveClientID (cfgID envID : String) : String × List (String × String) :=
  if cfgID = "" ∧ envID ≠ "" then (envID, [])
  else if cfgID ≠ "" ∧ envID = "" then (cfgID, [])
  else if cfgID ≠ "" ∧ envID ≠ "" then (cfgID, [])
  else ("", [("no client id", "no client id found")])

/-- From part_002 `Redpanda.Configure`: resolution of the client secret from the
configured value and the `CLIENT_SECRET` environment variable, symmetric to the id. -/
def resolveClientSecret (cfgSec envSec : String) : String × List (String × String) :=
  if cfgSec = "" ∧ envSec ≠ "" then (envSec, [])
  else if cfgSec ≠ "" ∧ envSec = "" then (cfgSec, [])
  else if cfgSec ≠ "" ∧ envSec ≠ "" then (cfgSec, [])
  else ("", [("no client secret", "no client secret found")])

/-- Outcome of the credential section of part_002 `Redpanda.Configure`. -/
structure ConfigureResult where
  id : String
  sec : String
  diags : List (String × String)
deriving DecidableEq, Repr

/-- From part_002 `Redpanda.Configure`: the two credential switches run in order, the
resolved values flow into the response, and the diagnostics accumulate. -/
def configureCredentials (cfgID envID cfgSec envSec : String) : ConfigureResult :=
  let i := resolveClientID cfgID envID
  let s := resolveClientSecret cfgSec envSec
  { id := i.1, sec := s.1, diags := i.2 ++ s.2 }

/-- Proto enum `dataplanev1alpha1.Topic_Configuration_Source`. -/
inductive TopicSource where
  | sourceUnspecified
  | dynamicTopicConfig
  | dynamicBrokerConfig
  | dynamicDefaultBrokerConfig
  | staticBrokerConfig
  | defaultConfig
  | dynamicBrokerLoggerConfig
deriving DecidableEq, Repr

/-- From part_003 `utils.TopicConfigurationSourceToString` (the default `"UNKNOWN"` arm is
unreachable over the enum's declared values). -/
def TopicConfigurationSourceToString (e : TopicSource) : String :=
  match e with
  | TopicSource.sourceUnspecified => "SOURCE_UNSPECIFIED"
  | TopicSource.dynamicTopicConfig => "DYNAMIC_TOPIC_CONFIG"
  | TopicSource.dynamicBrokerConfig => "DYNAMIC_BROKER_CONFIG"
  | TopicSource.dynamicDefaultBrokerConfig => "DYNAMIC_DEFAULT_BROKER_CONFIG"
  | TopicSource.staticBrokerConfig => "STATIC_BROKER_CONFIG"
  | TopicSource.defaultConfig => "DEFAULT_CONFIG"
  | TopicSource.dynamicBrokerLoggerConfig => "DYNAMIC_BROKER_LOGGER_CONFIG"

namespace dp

/-- Proto `dataplanev1alpha1.Topic_Configuration_ConfigSynonym`. -/
structure Topic_Configuration_ConfigSynonym where
  name : String
  value : String
  source : TopicSource
deriving DecidableEq, Repr

/-- Proto `dataplanev1alpha1.Topic_Configuration`. -/
structure Topic_Configuration where
  name : String
  type : String
  value : String
  source : TopicSource
  isReadOnly : Bool
  isSensitive : Bool
  configSynonyms : GoSlice Topic_Configuration_ConfigSynonym
  documentation : String
deriving DecidableEq, Repr

end dp

namespace models

/-- Terraform model `models.TopicConfigSynonym`. -/
structure TopicConfigSynonym where
  name : TFString
  value : TFString
  source : TFString
deriving DecidableEq, Repr

/-- Terraform model `models.TopicConfiguration`; Go slices of pointers become lists of
options, a `none` entry modelling a nil pointer. -/
structure TopicConfiguration where
  name : TFString
  type : TFString
  value : TFString
  source : TFString
  isReadOnly : TFBool
  isSensitive : TFBool
  configSynonyms : List (Option TopicConfigSynonym)
  documentation : TFString
deriving DecidableEq, Repr

end models

/-- From part_003 `utils.ConfigSynonymsToSlice`: the output is allocated with
`make([]*models.TopicConfigSynonym, len(synonyms))` — `len(synonyms)` nil pointers — and
the converted entries are then appended after them. -/
def ConfigSynonymsToSlice (synonyms : GoSlice dp.Topic_Configuration_ConfigSynonym) :
    List (Option models.TopicConfigSynonym) :=
  (synonyms.getD []).foldl
    (fun output v =>
      output ++ [some { name := some v.name, value := some v.value,
                        source := some (TopicConfigurationSourceToString v.source) }])
    (List.replicate (goLen synonyms) none)

/-- From part_003 `utils.TopicConfigurationToSlice`: the output is allocated with
`make([]*models.TopicConfiguration, len(cfg))` — `len(cfg)` nil pointers — and the
converted entries are then appended after them. -/
def TopicConfigurationToSlice (cfg : GoSlice dp.Topic_Configuration) :
    List (Option models.TopicConfiguration) :=
  (cfg.getD []).foldl
    (fun output v =>
      output ++ [some { name := some v.name, type := some v.type, value := some v.value,
                        source := some (TopicConfigurationSourceToString v.source),
                        isReadOnly := some v.isReadOnly, isSensitive := some v.isSensitive,
                        configSynonyms := ConfigSynonymsToSlice v.configSynonyms,
                        documentation := some v.documentation }])
    (List.replicate (goLen cfg) none)

/-- Conversion applied by `TopicConfigurationToSlice` to a single wire entry. -/
def topicConfigurationEntry (v : dp.Topic_Configuration) : models.TopicConfiguration :=
  { name := some v.name, type := some v.type, value := some v.value,
    source := some (TopicConfigurationSourceToString v.source),
    isReadOnly := some v.isReadOnly, isSensitive := some v.isSensitive,
    configSynonyms := ConfigSynonymsToSlice v.configSynonyms,
    documentation := some v.documentation }

/-- Conversion applied by `ConfigSynonymsToSlice` to a single wire entry. -/
def configSynonymEntry (v : dp.Topic_Configuration_ConfigSynonym) :
    models.TopicConfigSynonym :=
  { name := some v.name, value := some v.value,
    source := some (TopicConfigurationSourceToString v.source) }

/-- Proto enum `CloudProvider`. -/
inductive CloudProvider where
  | unspecified
  | aws
  | gcp
deriving DecidableEq, Repr

/-- Proto enum `Cluster_Type`. -/
inductive ClusterType where
  | unspecified
  | dedicated
  | byoc
deriving DecidableEq, Repr

/-- Proto enum `Cluster_ConnectionType`. -/
inductive ConnectionType where
  | unspecified
  | publicConn
  | privateConn
deriving DecidableEq, Repr

/-- From part_003 `utils.CloudProviderToString`. -/
def CloudProviderToString (provider : CloudProvider) : String :=
  match provider with
  | CloudProvider.aws => "aws"
  | CloudProvider.gcp => "gcp"
  | _ => "unspecified"

/-- From part_003 `utils.ClusterTypeToString`. -/
def ClusterTypeToString (provider : ClusterType) : String :=
  match provider with
  | ClusterType.dedicated => "dedicated"
  | ClusterType.byoc => "cloud"
  | _ => "unspecified"

/-- From part_003 `utils.ConnectionTypeToString`. -/
def ConnectionTypeToString (t : ConnectionType) : String :=
  match t with
  | ConnectionType.publicConn => "public"
  | ConnectionType.privateConn => "private"
  | _ => "unspecified"

namespace cp

/-- Proto `controlplanev1beta2.MTLSSpec`. -/
structure MTLSSpec where
  enabled : Bool
  caCertificatesPem : GoSlice String
  principalMappingRules : GoSlice String
deriving DecidableEq, Repr

/-- Proto `controlplanev1beta2.AWSPrivateLinkStatus`, the fields read by cluster.go. -/
structure AWSPrivateLinkStatus where
  enabled : Bool
  connectConsole : Bool
  allowedPrincipals : GoSlice String
deriving DecidableEq, Repr

/-- Proto `controlplanev1beta2.AWSPrivateLinkSpec`. -/
structure AWSPrivateLinkSpec where
  enabled : Bool
  allowedPrincipals : GoSlice String
  connectConsole : Bool
deriving DecidableEq, Repr

/-- Proto `controlplanev1beta2.AzurePrivateLinkStatus`, the fields read by cluster.go. -/
structure AzurePrivateLinkStatus where
  enabled : Bool
  connectConsole : Bool
  allowedSubscriptions : GoSlice String
deriving DecidableEq, Repr

/-- Proto `controlplanev1beta2.AzurePrivateLinkSpec`. -/
structure AzurePrivateLinkSpec where
  enabled : Bool
  allowedSubscriptions : GoSlice String
  connectConsole : Bool
deriving DecidableEq, Repr

/-- Proto `controlplanev1beta2.GCPPrivateServiceConnectConsumer`. -/
structure GCPPrivateServiceConnectConsumer where
  source : String
deriving DecidableEq, Repr

/-- Proto `controlplanev1beta2.GCPPrivateServiceConnectStatus`, the fields read by cluster.go. -/
structure GCPPrivateServiceConnectStatus where
  enabled : Bool
  globalAccessEnabled : Bool
  consumerAcceptList : GoSlice GCPPrivateServiceConnectConsumer
deriving DecidableEq, Repr

/-- Proto `controlplanev1beta2.GCPPrivateServiceConnectSpec`. -/
structure GCPPrivateServiceConnectSpec where
  enabled : Bool
  globalAccessEnabled : Bool
  consumerAcceptList : GoSlice GCPPrivateServiceConnectConsumer
deriving DecidableEq, Repr

/-- Proto `controlplanev1beta2.KafkaAPISpec`: a pointer to an mTLS spec. -/
structure KafkaAPISpec where
  mtls : Option MTLSSpec
deriving DecidableEq, Repr

/-- Proto `controlplanev1beta2.HTTPProxySpec`. -/
structure HTTPProxySpec where
  mtls : Option MTLSSpec
deriving DecidableEq, Repr

/-- Proto `controlplanev1beta2.SchemaRegistrySpec`. -/
structure SchemaRegistrySpec where
  mtls : Option MTLSSpec
deriving DecidableEq, Repr

/-- Proto status block carrying the dataplane API URL. -/
structure DataplaneAPI where
  url : String
deriving DecidableEq, Repr

/-- Proto `controlplanev1beta2.Cluster`, the fields read by `generateModel`. -/
structure Cluster where
  name : String
  connectionType : ConnectionType
  cloudProvider : CloudProvider
  type : ClusterType
  throughputTier : String
  region : String
  resourceGroupId : String
  networkId : String
  id : String
  readReplicaClusterIds : GoSlice String
  zones : GoSlice String
  dataplaneApi : Option DataplaneAPI
  awsPrivateLink : Option AWSPrivateLinkStatus
  gcpPrivateServiceConnect : Option GCPPrivateServiceConnectStatus
  azurePrivateLink : Option AzurePrivateLinkStatus
  kafkaApi : Option KafkaAPISpec
  httpProxy : Option HTTPProxySpec
  schemaRegistry : Option SchemaRegistrySpec
deriving DecidableEq, Repr

/-- Proto `controlplanev1beta2.ClusterUpdate`, the fields written by `generateClusterUpdate`. -/
structure ClusterUpdate where
  id : String
  name : String
  readReplicaClusterIds : GoSlice String
  awsPrivateLink : Option AWSPrivateLinkSpec
  azurePrivateLink : Option AzurePrivateLinkSpec
  gcpPrivateServiceConnect : Option GCPPrivateServiceConnectSpec
  kafkaApi : Option KafkaAPISpec
  httpProxy : Option HTTPProxySpec
  schemaRegistry : Option SchemaRegistrySpec
deriving DecidableEq, Repr

/-- Proto `controlplanev1beta2.UpdateClusterRequest`. -/
structure UpdateClusterRequest where
  cluster : ClusterUpdate
  updateMask : List String
deriving DecidableEq, Repr

end cp

namespace models

/-- Terraform model `models.Mtls`. -/
structure Mtls where
  enabled : TFBool
  caCertificatesPem : TFList
  principalMappingRules : TFList
deriving DecidableEq, Repr

/-- Terraform model `models.AwsPrivateLink`. -/
structure AwsPrivateLink where
  enabled : TFBool
  connectConsole : TFBool
  allowedPrincipals : TFList
deriving DecidableEq, Repr

/-- Terraform model `models.AzurePrivateLink`. -/
structure AzurePrivateLink where
  enabled : TFBool
  connectConsole : TFBool
  allowedSubscriptions : TFList
deriving DecidableEq, Repr

/-- Terraform model `models.GcpPrivateServiceConnectConsumer`. -/
structure GcpPrivateServiceConnectConsumer where
  source : String
deriving DecidableEq, Repr

/-- Terraform model `models.GcpPrivateServiceConnect`. -/
structure GcpPrivateServiceConnect where
  enabled : TFBool
  globalAccessEnabled : TFBool
  consumerAcceptList : GoSlice GcpPrivateServiceConnectConsumer
deriving DecidableEq, Repr

/-- Terraform model `models.KafkaAPI`. -/
structure KafkaAPI where
  mtls : Option Mtls
deriving DecidableEq, Repr

/-- Terraform model `models.HTTPProxy`. -/
structure HTTPProxy where
  mtls : Option Mtls
deriving DecidableEq, Repr

/-- Terraform model `models.SchemaRegistry`. -/
structure SchemaRegistry where
  mtls : Option Mtls
deriving DecidableEq, Repr

/-- Terraform model `models.Cluster`. -/
structure Cluster where
  name : TFString
  connectionType : TFString
  cloudProvider : TFString
  clusterType : TFString
  redpandaVersion : TFString
  throughputTier : TFString
  region : TFString
  allowDeletion : TFBool
  tags : TFMap
  resourceGroupID : TFString
  networkID : TFString
  id : TFString
  readReplicaClusterIDs : TFList
  zones : TFList
  clusterAPIURL : TFString
  awsPrivateLink : Option AwsPrivateLink
  gcpPrivateServiceConnect : Option GcpPrivateServiceConnect
  azurePrivateLink : Option AzurePrivateLink
  kafkaAPI : Option KafkaAPI
  httpProxy : Option HTTPProxy
  schemaRegistry : Option SchemaRegistry
deriving DecidableEq, Repr

end models

/-- From cluster.go `gcpConnectConsumerModelToStruct`: append-converts each accept-list
entry, starting from the nil slice. -/
def gcpConnectConsumerModelToStruct
    (accept : GoSlice models.GcpPrivateServiceConnectConsumer) :
    GoSlice cp.GCPPrivateServiceConnectConsumer :=
  (accept.getD []).foldl (fun output a => goAppend output { source := a.source }) none

/-- From cluster.go `gcpConnectConsumerStructToModel`: append-converts each accept-list
entry, starting from an allocated empty slice so the result is never nil. -/
def gcpConnectConsumerStructToModel
    (accept : GoSlice cp.GCPPrivateServiceConnectConsumer) :
    GoSlice models.GcpPrivateServiceConnectConsumer :=
  (accept.getD []).foldl (fun output a => goAppend output { source := a.source }) (some [])

/-- From cluster.go `isMtlsStructNil`: nil pointer, or every leaf null. -/
def isMtlsStructNil (m : Option models.Mtls) : Bool :=
  match m with
  | none => true
  | some x =>
    x.enabled.isNone && x.caCertificatesPem.isNone && x.principalMappingRules.isNone

/-- From cluster.go `isMtlsSpecNil`: nil pointer, or disabled with both lists empty
(proto getters return zero values on nil, and `len` of a nil slice is zero). -/
def isMtlsSpecNil (m : Option cp.MTLSSpec) : Bool :=
  match m with
  | none => true
  | some x =>
    !x.enabled && goLen x.caCertificatesPem == 0 && goLen x.principalMappingRules == 0

/-- From cluster.go `isMtlsNil`: the reflection walk over a container pointer holding an
`Mtls` field, modelled on the projected field — nil container, nil field, or a field that
`isMtlsStructNil` accepts. -/
def isMtlsNil (container : Option (Option models.Mtls)) : Bool :=
  match container with
  | none => true
  | some mtlsField =>
    match mtlsField with
    | none => true
    | some x => isMtlsStructNil (some x)

/-- From cluster.go `isAwsPrivateLinkStructNil`: nil pointer, or every leaf null. -/
def isAwsPrivateLinkStructNil (m : Option models.AwsPrivateLink) : Bool :=
  match m with
  | none => true
  | some x => x.enabled.isNone && x.connectConsole.isNone && x.allowedPrincipals.isNone

/-- From cluster.go `isAwsPrivateLinkSpecNil`: nil pointer, or every field at its proto
zero value. -/
def isAwsPrivateLinkSpecNil (m : Option cp.AWSPrivateLinkStatus) : Bool :=
  match m with
  | none => true
  | some x => !x.enabled && !x.connectConsole && goLen x.allowedPrincipals == 0

/-- From cluster.go `isAzurePrivateLinkStructNil`: nil pointer, or every leaf null. -/
def isAzurePrivateLinkStructNil (m : Option models.AzurePrivateLink) : Bool :=
  match m with
  | none => true
  | some x =>
    x.enabled.isNone && x.allowedSubscriptions.isNone && x.connectConsole.isNone

/-- From cluster.go `isAzurePrivateLinkSpecNil`: nil pointer, or every field at its proto
zero value. -/
def isAzurePrivateLinkSpecNil (m : Option cp.AzurePrivateLinkStatus) : Bool :=
  match m with
  | none => true
  | some x => !x.enabled && goLen x.allowedSubscriptions == 0 && !x.connectConsole

/-- From cluster.go `isGcpPrivateServiceConnectStructNil`: nil pointer, or both flags
null and an empty accept list. -/
def isGcpPrivateServiceConnectStructNil (m : Option models.GcpPrivateServiceConnect) :
    Bool :=
  match m with
  | none => true
  | some x =>
    x.enabled.isNone && x.globalAccessEnabled.isNone && goLen x.consumerAcceptList == 0

/-- From cluster.go `isGcpPrivateServiceConnectSpecNil`: nil pointer, or every field at
its proto zero value. -/
def isGcpPrivateServiceConnectSpecNil (m : Option cp.GCPPrivateServiceConnectStatus) :
    Bool :=
  match m with
  | none => true
  | some x => !x.enabled && !x.globalAccessEnabled && goLen x.consumerAcceptList == 0

/-- From cluster.go `toMtlsModel`: a spec that `isMtlsSpecNil` accepts becomes a nil
model, any other becomes a model with every leaf set from the spec's getters. -/
def toMtlsModel (mtls : Option cp.MTLSSpec) : Option models.Mtls :=
  match mtls with
  | none => none
  | some m =>
    if isMtlsSpecNil (some m) then none
    else
      some { enabled := some m.enabled,
             caCertificatesPem := StringSliceToTypeList m.caCertificatesPem,
             principalMappingRules := StringSliceToTypeList m.principalMappingRules }

/-- From cluster.go `toMtlsSpec`: a model that `isMtlsStructNil` accepts becomes the
disabled spec with allocated empty lists, any other is converted leaf by leaf. -/
def toMtlsSpec (mtls : Option models.Mtls) : cp.MTLSSpec :=
  match mtls with
  | none =>
    { enabled := false, caCertificatesPem := some [], principalMappingRules := some [] }
  | some m =>
    if isMtlsStructNil (some m) then
      { enabled := false, caCertificatesPem := some [], principalMappingRules := some [] }
    else
      { enabled := valueBool m.enabled,
        caCertificatesPem := TypeListToStringSlice m.caCertificatesPem,
        principalMappingRules := TypeListToStringSlice m.principalMappingRules }

/-- From cluster.go `generateClusterUpdate`: the update always carries the id, name and
read-replica ids; each optional block is attached only when its struct-nil check fails,
with leaves read through the Terraform value getters. -/
def generateClusterUpdate (cluster : models.Cluster) : cp.ClusterUpdate :=
  { id := valueString cluster.id
    name := valueString cluster.name
    readReplicaClusterIds := TypeListToStringSlice cluster.readReplicaClusterIDs
    awsPrivateLink :=
      match cluster.awsPrivateLink with
      | some m =>
        if isAwsPrivateLinkStructNil (some m) then none
        else
          some { enabled := valueBool m.enabled,
                 allowedPrincipals := TypeListToStringSlice m.allowedPrincipals,
                 connectConsole := valueBool m.connectConsole }
      | none => none
    azurePrivateLink :=
      match cluster.azurePrivateLink with
      | some m =>
        if isAzurePrivateLinkStructNil (some m) then none
        else
          some { enabled := valueBool m.enabled,
                 allowedSubscriptions := TypeListToStringSlice m.allowedSubscriptions,
                 connectConsole := valueBool m.connectConsole }
      | none => none
    gcpPrivateServiceConnect :=
      match cluster.gcpPrivateServiceConnect with
      | some m =>
        if isGcpPrivateServiceConnectStructNil (some m) then none
        else
          some { enabled := valueBool m.enabled,
                 globalAccessEnabled := valueBool m.globalAccessEnabled,
                 consumerAcceptList :=
                   gcpConnectConsumerModelToStruct m.consumerAcceptList }
      | none => none
    kafkaApi :=
      match cluster.kafkaAPI with
      | some k =>
        if isMtlsNil (some k.mtls) then none
        else some { mtls := some (toMtlsSpec k.mtls) }
      | none => none
    httpProxy :=
      match cluster.httpProxy with
      | some k =>
        if isMtlsNil (some k.mtls) then none
        else some { mtls := some (toMtlsSpec k.mtls) }
      | none => none
    schemaRegistry :=
      match cluster.schemaRegistry with
      | some k =>
        if isMtlsNil (some k.mtls) then none
        else some { mtls := some (toMtlsSpec k.mtls) }
      | none => none }

/-- From cluster.go `generateModel` (the Go function returns a nil error on every path,
so the embedding returns the model directly): scalar fields come from the backend
cluster, configuration-only fields from `cfg`; each optional block is attached only when
its spec-nil check fails, and a null allowed-principals or allowed-subscriptions list is
replaced by an allocated empty Terraform list before being stored. -/
def generateModel (cfg : models.Cluster) (cluster : cp.Cluster) : models.Cluster :=
  { name := some cluster.name
    connectionType := some (ConnectionTypeToString cluster.connectionType)
    cloudProvider := some (CloudProviderToString cluster.cloudProvider)
    clusterType := some (ClusterTypeToString cluster.type)
    redpandaVersion := cfg.redpandaVersion
    throughputTier := some cluster.throughputTier
    region := some cluster.region
    allowDeletion := cfg.allowDeletion
    tags := cfg.tags
    resourceGroupID := some cluster.resourceGroupId
    networkID := some cluster.networkId
    id := some cluster.id
    readReplicaClusterIDs := StringSliceToTypeList cluster.readReplicaClusterIds
    zones := StringSliceToTypeList cluster.zones
    clusterAPIURL :=
      match cluster.dataplaneApi with
      | some d => some d.url
      | none => none
    awsPrivateLink :=
      match cluster.awsPrivateLink with
      | some s =>
        if isAwsPrivateLinkSpecNil (some s) then none
        else
          let ap := StringSliceToTypeList s.allowedPrincipals
          let ap2 := if ap.isNone then some [] else ap
          some { enabled := some s.enabled, connectConsole := some s.connectConsole,
                 allowedPrincipals := ap2 }
      | none => none
    gcpPrivateServiceConnect :=
      match cluster.gcpPrivateServiceConnect with
      | some s =>
        if isGcpPrivateServiceConnectSpecNil (some s) then none
        else
          some { enabled := some s.enabled,
                 globalAccessEnabled := some s.globalAccessEnabled,
                 consumerAcceptList :=
                   gcpConnectConsumerStructToModel s.consumerAcceptList }
      | none => none
    azurePrivateLink :=
      match cluster.azurePrivateLink with
      | some s =>
        if isAzurePrivateLinkSpecNil (some s) then none
        else
          let as := StringSliceToTypeList s.allowedSubscriptions
          let as2 := if as.isNone then some [] else as
          some { enabled := some s.enabled, connectConsole := some s.connectConsole,
                 allowedSubscriptions := as2 }
      | none => none
    kafkaAPI :=
      match toMtlsModel (match cluster.kafkaApi with
                         | some k => k.mtls
                         | none => none) with
      | some kAPI => some { mtls := some kAPI }
      | none => none
    httpProxy :=
      match toMtlsModel (match cluster.httpProxy with
                         | some k => k.mtls
                         | none => none) with
      | some ht => some { mtls := some ht }
      | none => none
    schemaRegistry :=
      match toMtlsModel (match cluster.schemaRegistry with
                         | some k => k.mtls
                         | none => none) with
      | some sr => some { mtls := some sr }
      | none => none }

/-- Modelled from the spec: `utils.GenerateProtobufDiffAndUpdateMask` is not under src/
(only its caller `generateUpdateRequest` is). Per spec section 4.2 the diff walks the
update's fields in a fixed schema order; a field whose plan value differs from the state
value is added to the mask at its root path and the plan's value is copied into the
payload; nested blocks are compared and copied wholesale; the identifier is always copied
into the payload and never added to the mask; an unchanged field stays at its proto zero
value in the payload and off the mask. -/
def GenerateProtobufDiffAndUpdateMask (plan state : cp.ClusterUpdate) :
    cp.ClusterUpdate × List String :=
  ({ id := plan.id
     name := if plan.name = state.name then "" else plan.name
     readReplicaClusterIds :=
       if plan.readReplicaClusterIds = state.readReplicaClusterIds then none
       else plan.readReplicaClusterIds
     awsPrivateLink :=
       if plan.awsPrivateLink = state.awsPrivateLink then none else plan.awsPrivateLink
     azurePrivateLink :=
       if plan.azurePrivateLink = state.azurePrivateLink then none
       else plan.azurePrivateLink
     gcpPrivateServiceConnect :=
       if plan.gcpPrivateServiceConnect = state.gcpPrivateServiceConnect then none
       else plan.gcpPrivateServiceConnect
     kafkaApi := if plan.kafkaApi = state.kafkaApi then none else plan.kafkaApi
     httpProxy := if plan.httpProxy = state.httpProxy then none else plan.httpProxy
     schemaRegistry :=
       if plan.schemaRegistry = state.schemaRegistry then none else plan.schemaRegistry },
   (if plan.name = state.name then [] else ["name"]) ++
   (if plan.readReplicaClusterIds = state.readReplicaClusterIds then []
    else ["read_replica_cluster_ids"]) ++
   (if plan.awsPrivateLink = state.awsPrivateLink then [] else ["aws_private_link"]) ++
   (if plan.azurePrivateLink = state.azurePrivateLink then []
    else ["azure_private_link"]) ++
   (if plan.gcpPrivateServiceConnect = state.gcpPrivateServiceConnect then []
    else ["gcp_private_service_connect"]) ++
   (if plan.kafkaApi = state.kafkaApi then [] else ["kafka_api"]) ++
   (if plan.httpProxy = state.httpProxy then [] else ["http_proxy"]) ++
   (if plan.schemaRegistry = state.schemaRegistry then [] else ["schema_registry"]))

/-- From cluster.go `generateUpdateRequest`: build both cluster updates, diff them, then
overwrite the diff payload's id with the plan update's id before wrapping the request. -/
def generateUpdateRequest (plan state : models.Cluster) : cp.UpdateClusterRequest :=
  let planUpdate := generateClusterUpdate plan
  let stateUpdate := generateClusterUpdate state
  let ufm := GenerateProtobufDiffAndUpdateMask planUpdate stateUpdate
  { cluster := { ufm.1 with id := planUpdate.id }, updateMask := ufm.2 }

/-- Sample non-terminal operation. -/
def runningOp : Operation := { id := "op-run", state := OpState.running, error := none }

/-- Sample terminal operation with no error payload. -/
def completedOp : Operation :=
  { id := "op-done", state := OpState.completed, error := none }

/-- Sample terminal operation whose error payload carries a message. -/
def completedErrOp : Operation :=
  { id := "op-err", state := OpState.completed, error := some { message := "boom" } }

/-- Sample failed operation whose error message looks like a not-found condition. -/
def failedNotFoundOp : Operation :=
  { id := "op-nf", state := OpState.failed, error := some { message := "cluster not found" } }

/-- Sample failed operation whose error message does not look like a not-found condition. -/
def failedGenuineOp : Operation :=
  { id := "op-gen", state := OpState.failed, error := some { message := "disk quota exceeded" } }

/-- Sample pending operation. -/
def pendingOp : Operation := { id := "op-pend", state := OpState.pending, error := none }

/-- Cluster model with every field null, the base for concrete test inputs. -/
def emptyClusterModel : models.Cluster :=
  { name := none, connectionType := none, cloudProvider := none, clusterType := none,
    redpandaVersion := none, throughputTier := none, region := none, allowDeletion := none,
    tags := none, resourceGroupID := none, networkID := none, id := none,
    readReplicaClusterIDs := none, zones := none, clusterAPIURL := none,
    awsPrivateLink := none, gcpPrivateServiceConnect := none, azurePrivateLink := none,
    kafkaAPI := none, httpProxy := none, schemaRegistry := none }

/-- An aws_private_link model block with every leaf explicitly set to its default value. -/
def allDefaultAwsBlock : models.AwsPrivateLink :=
  { enabled := some false, connectConsole := some false, allowedPrincipals := some [] }

/-- Cluster model carrying the explicitly-default aws_private_link block. -/
def explicitDefaultAwsCluster : models.Cluster :=
  { emptyClusterModel with awsPrivateLink := some allDefaultAwsBlock }

/-- Backend cluster with no optional blocks. -/
def baseBackendCluster : cp.Cluster :=
  { name := "c1", connectionType := ConnectionType.publicConn,
    cloudProvider := CloudProvider.aws, type := ClusterType.dedicated,
    throughputTier := "tier-1", region := "us-east-1", resourceGroupId := "rg-1",
    networkId := "net-1", id := "cl-1", readReplicaClusterIds := none, zones := none,
    dataplaneApi := none, awsPrivateLink := none, gcpPrivateServiceConnect := none,
    azurePrivateLink := none, kafkaApi := none, httpProxy := none,
    schemaRegistry := none }

/-- Backend aws_private_link status with every field at its zero value. -/
def allDefaultAwsStatus : cp.AWSPrivateLinkStatus :=
  { enabled := false, connectConsole := false, allowedPrincipals := none }

/-- Backend aws_private_link status enabled with a nil principals slice. -/
def enabledAwsStatus : cp.AWSPrivateLinkStatus :=
  { enabled := true, connectConsole := false, allowedPrincipals := none }

/-- Backend azure_private_link status enabled with a nil subscriptions slice. -/
def enabledAzureStatus : cp.AzurePrivateLinkStatus :=
  { enabled := true, connectConsole := false, allowedSubscriptions := none }

/-- Backend cluster keeping an enabled aws_private_link block. -/
def backendWithAws : cp.Cluster :=
  { baseBackendCluster with awsPrivateLink := some enabledAwsStatus }

/-- Backend cluster keeping an enabled azure_private_link block. -/
def backendWithAzure : cp.Cluster :=
  { baseBackendCluster with azurePrivateLink := some enabledAzureStatus }

/-- Sample wire config synonym. -/
def sampleSynonym : dp.Topic_Configuration_ConfigSynonym :=
  { name := "syn", value := "sv", source := TopicSource.defaultConfig }

/-- Sample wire topic configuration. -/
def sampleTopicConfig : dp.Topic_Configuration :=
  { name := "retention.ms", type := "LONG", value := "1000",
    source := TopicSource.dynamicTopicConfig, isReadOnly := false, isSensitive := false,
    configSynonyms := some [sampleSynonym], documentation := "doc" }

theorem startsWithChars_iff (sub : List Char) :
    ∀ s : List Char, startsWithChars sub s = true ↔ ∃ t, s = sub ++ t := by
  induction sub with
  | nil =>
    intro s
    simp [startsWithChars]
  | cons a as ih =>
    intro s
    cases s with
    | nil =>
      simp [startsWithChars]
    | cons b bs =>
      simp only [startsWithChars, Bool.and_eq_true, beq_iff_eq, ih bs]
      constructor
      · rintro ⟨rfl, t, rfl⟩
        exact ⟨t, rfl⟩
      · rintro ⟨t, h⟩
        rw [List.cons_append] at h
        cases h
        exact ⟨rfl, t, rfl⟩

theorem containsChars_iff (s sub : List Char) :
    containsChars s sub = true ↔ ∃ p q, s = p ++ sub ++ q := by
  induction s with
  | nil =>
    simp only [containsChars, List.isEmpty_iff]
    constructor
    · rintro rfl
      exact ⟨[], [], rfl⟩
    · rintro ⟨p, q, h⟩
      rcases List.append_eq_nil.mp h.symm with ⟨h1, h2⟩
      exact (List.append_eq_nil.mp h1).2
  | cons a rest ih =>
    simp only [containsChars, Bool.or_eq_true, startsWithChars_iff, ih]
    constructor
    · rintro (⟨t, h⟩ | ⟨p, q, h⟩)
      · exact ⟨[], t, by simpa using h⟩
      · exact ⟨a :: p, q, by simp [h]⟩
    · rintro ⟨p, q, h⟩
      cases p with
      | nil =>
        exact Or.inl ⟨q, by simpa using h⟩
      | cons x xs =>
        rw [List.cons_append, List.cons_append] at h
        cases h
        exact Or.inr ⟨xs, q, rfl⟩

theorem string_data_append (a b : String) : (a ++ b).data = a.data ++ b.data := rfl

theorem string_mk_data (l : List Char) : (String.mk l).data = l := rfl

theorem string_eq_of_data_eq : ∀ a b : String, a.data = b.data → a = b := by
  rintro ⟨a⟩ ⟨b⟩ h
  cases h
  rfl

theorem goContains_iff (s sub : String) :
    goContains s sub = true ↔ IsSubstringOf sub s := by
  unfold goContains IsSubstringOf
  rw [containsChars_iff]
  constructor
  · rintro ⟨p, q, h⟩
    refine ⟨String.mk p, String.mk q, string_eq_of_data_eq _ _ ?_⟩
    rw [h]
    rfl
  · rintro ⟨pre, post, h⟩
    refine ⟨pre.data, post.data, ?_⟩
    rw [h]
    rfl

theorem foldl_append_entries {α β : Type} (f : α → β) :
    ∀ (l : List α) (init : List β),
      l.foldl (fun out v => out ++ [f v]) init = init ++ l.map f := by
  intro l
  induction l with
  | nil => intro init; simp
  | cons a as ih =>
    intro init
    simp [List.foldl_cons, ih]

/-- C8: for every error message, `IsNotFound` returns true exactly when the message
contains at least one of the substrings "not found", "NotFound" or "404"; the
classification is pure substring matching on the message. -/
theorem isNotFound_iff_substring (msg : String) :
    IsNotFound msg = true ↔
      (IsSubstringOf "not found" msg ∨ IsSubstringOf "NotFound" msg ∨
       IsSubstringOf "404" msg) := by
  rw [← goContains_iff, ← goContains_iff, ← goContains_iff]
  unfold IsNotFound
  split
  · next h =>
    simp only [Bool.or_eq_true] at h
    simp only [true_iff]
    tauto
  · next h =>
    simp only [Bool.or_eq_true, not_or] at h
    simp only [Bool.false_eq_true, false_iff]
    tauto

/-- C10: for a non-empty input slice of length n, `TopicConfigurationToSlice` (and
likewise `ConfigSynonymsToSlice`) returns a slice of length 2n whose first n entries are
nil pointers, the converted entries occupying only the second half, because the output is
allocated with make at length n and then appended to. -/
theorem topicConfigurationToSlice_shape (cfg : GoSlice dp.Topic_Configuration)
    (syns : GoSlice dp.Topic_Configuration_ConfigSynonym)
    (_hc : 0 < goLen cfg) (_hs : 0 < goLen syns) :
    (TopicConfigurationToSlice cfg).length = 2 * goLen cfg ∧
    (TopicConfigurationToSlice cfg).take (goLen cfg) = List.replicate (goLen cfg) none ∧
    (TopicConfigurationToSlice cfg).drop (goLen cfg) =
      (cfg.getD []).map (fun v => some (topicConfigurationEntry v)) ∧
    (ConfigSynonymsToSlice syns).length = 2 * goLen syns ∧
    (ConfigSynonymsToSlice syns).take (goLen syns) = List.replicate (goLen syns) none ∧
    (ConfigSynonymsToSlice syns).drop (goLen syns) =
      (syns.getD []).map (fun v => some (configSynonymEntry v)) := by
  have h1 : TopicConfigurationToSlice cfg =
      List.replicate (goLen cfg) none ++
        (cfg.getD []).map (fun v => some (topicConfigurationEntry v)) := by
    unfold TopicConfigurationToSlice topicConfigurationEntry
    exact foldl_append_entries _ _ _
  have h2 : ConfigSynonymsToSlice syns =
      List.replicate (goLen syns) none ++
        (syns.getD []).map (fun v => some (configSynonymEntry v)) := by
    unfold ConfigSynonymsToSlice configSynonymEntry
    exact foldl_append_entries _ _ _
  have hlen1 : (List.replicate (goLen cfg)
      (none : Option models.TopicConfiguration)).length = goLen cfg :=
    List.length_replicate _ _
  have hlen2 : (List.replicate (goLen syns)
      (none : Option models.TopicConfigSynonym)).length = goLen syns :=
    List.length_replicate _ _
  refine ⟨?_, ?_, ?_, ?_, ?_, ?_⟩
  · rw [h1]
    simp [goLen, two_mul]
  · rw [h1, List.take_left' hlen1]
  · rw [h1, List.drop_left' hlen1]
  · rw [h2]
    simp [goLen, two_mul]
  · rw [h2, List.take_left' hlen2]
  · rw [h2, List.drop_left' hlen2]

/-- Witness for C10 at a concrete one-element slice. -/
theorem topicConfigurationToSlice_shape_witness :
    (TopicConfigurationToSlice (some [sampleTopicConfig])).length = 2 * 1 ∧
    (TopicConfigurationToSlice (some [sampleTopicConfig])).take 1 =
      List.replicate 1 none := by
  have h := topicConfigurationToSlice_shape (some [sampleTopicConfig])
    (some [sampleSynonym]) (by decide) (by decide)
  exact ⟨h.1, h.2.1⟩

/-- C9: in the provider's Configure, for each credential independently, a non-empty
configured value takes precedence over the environment variable, the environment variable
is used only when the configured value is empty, and when both are empty an error
diagnostic is added for that credential. -/
theorem configureCredentials_precedence (cfgID envID cfgSec envSec : String) :
    (cfgID ≠ "" → (configureCredentials cfgID envID cfgSec envSec).id = cfgID) ∧
    (cfgID = "" → envID ≠ "" →
      (configureCredentials cfgID envID cfgSec envSec).id = envID) ∧
    (cfgID = "" → envID = "" →
      ("no client id", "no client id found") ∈
        (configureCredentials cfgID envID cfgSec envSec).diags) ∧
    (cfgSec ≠ "" → (configureCredentials cfgID envID cfgSec envSec).sec = cfgSec) ∧
    (cfgSec = "" → envSec ≠ "" →
      (configureCredentials cfgID envID cfgSec envSec).sec = envSec) ∧
    (cfgSec = "" → envSec = "" →
      ("no client secret", "no client secret found") ∈
        (configureCredentials cfgID envID cfgSec envSec).diags) := by
  refine ⟨?_, ?_, ?_, ?_, ?_, ?_⟩
  · intro h
    by_cases he : envID = "" <;>
      simp [configureCredentials, resolveClientID, h, he]
  · intro h he
    simp [configureCredentials, resolveClientID, h, he]
  · intro h he
    by_cases hs : cfgSec = "" <;> by_cases hse : envSec = "" <;>
      simp [configureCredentials, resolveClientID, resolveClientSecret, h, he, hs, hse]
  · intro h
    by_cases he : envSec = "" <;>
      simp [configureCredentials, resolveClientSecret, h, he]
  · intro h he
    simp [configureCredentials, resolveClientSecret, h, he]
  · intro h he
    by_cases hs : cfgID = "" <;> by_cases hse : envID = "" <;>
      simp [configureCredentials, resolveClientID, resolveClientSecret, h, he, hs, hse]

/-- Witness for C9 at concrete credentials: a configured id beats the environment, and
empty secret values add the secret diagnostic. -/
theorem configureCredentials_precedence_witness :
    (configureCredentials "cfg-id" "env-id" "" "").id = "cfg-id" ∧
    ("no client secret", "no client secret found") ∈
      (configureCredentials "cfg-id" "env-id" "" "").diags := by
  have h := configureCredentials_precedence "cfg-id" "env-id" "" ""
  exact ⟨h.1 (by decide), h.2.2.2.2.2 rfl rfl⟩

/-- C4: an operation that is already terminal is resolved by `AreWeDoneYet` with zero
`GetOperation` calls, for every fetch oracle: success when COMPLETED with a nil error
payload, and an operation-failed error carrying the payload's message when the initial
operation has a non-nil error payload. -/
theorem areWeDoneYet_initial_terminal :
    (∀ (op : Operation) (t : Nat) (fetch : Nat → Except String Operation)
       (lat : Nat → Nat) (fuel : Nat),
       op.state = OpState.completed → op.error = none →
       AreWeDoneYet op t fetch lat fuel = some (PollResult.ok, 0)) ∧
    (∀ (op : Operation) (t : Nat) (fetch : Nat → Except String Operation)
       (lat : Nat → Nat) (fuel : Nat) (e : OpError),
       CheckOpsState op = true → op.error = some e →
       AreWeDoneYet op t fetch lat fuel =
         some (PollResult.opFailed ("operation failed: " ++ e.message), 0)) := by
  constructor
  · intro op t fetch lat fuel hstate herr
    have hterm : CheckOpsState op = true := by
      simp [CheckOpsState, hstate]
    simp [AreWeDoneYet, hterm, herr]
  · intro op t fetch lat fuel e hterm herr
    simp [AreWeDoneYet, hterm, herr]

/-- Witness for C4: a COMPLETED operation with no error resolves to success with zero
fetches even against an oracle that always fails, and a COMPLETED operation carrying an
error payload resolves to the operation-failed error with zero fetches. -/
theorem areWeDoneYet_initial_terminal_witness :
    AreWeDoneYet completedOp 900 (fun _ => Except.error "unreachable") (fun _ => 0) 3 =
      some (PollResult.ok, 0) ∧
    AreWeDoneYet completedErrOp 900 (fun _ => Except.error "unreachable") (fun _ => 0) 3 =
      some (PollResult.opFailed "operation failed: boom", 0) := by
  constructor
  · exact areWeDoneYet_initial_terminal.1 completedOp 900 _ _ 3 rfl rfl
  · exact areWeDoneYet_initial_terminal.2 completedErrOp 900 _ _ 3 { message := "boom" }
      rfl rfl

/-- C1: evaluation of the polling loop on terminal operations with error payloads. The
code inverts the spec's not-found reinterpretation: a first fetch returning FAILED with
message "cluster not found" makes the call return the operation-failed error, while a
first fetch returning FAILED with the genuine failure message "disk quota exceeded" makes
the call return success. -/
theorem areWeDoneYet_notFound_inverted :
    AreWeDoneYet pendingOp 900 (fun _ => Except.ok failedNotFoundOp) (fun _ => 0) 5 =
      some (PollResult.opFailed "operation failed: cluster not found", 1) ∧
    AreWeDoneYet pendingOp 900 (fun _ => Except.ok failedGenuineOp) (fun _ => 0) 5 =
      some (PollResult.ok, 1) := by
  constructor <;> rfl

/-- C3 counterexample: the cluster model whose aws_private_link block has every leaf
explicitly set to its default value (enabled=false, connect_console=false, an explicit
empty allowed_principals list, all non-null) still produces a ClusterUpdate that carries
an AwsPrivateLink block, so the claimed rewrite to the absent sentinel does not happen. -/
theorem generateClusterUpdate_explicit_defaults_kept :
    (generateClusterUpdate explicitDefaultAwsCluster).awsPrivateLink ≠ none := by
  decide

/-- C3 amended: `generateClusterUpdate` omits the AwsPrivateLink block exactly when the
model's block is absent or every one of its three leaves is null (unset); a present block
whose leaves are explicitly set — even to default values — is kept. -/
theorem generateClusterUpdate_collapse_iff_null (c : models.Cluster) :
    (generateClusterUpdate c).awsPrivateLink = none ↔
      (c.awsPrivateLink = none ∨
       ∃ m, c.awsPrivateLink = some m ∧
         m.enabled = none ∧ m.connectConsole = none ∧ m.allowedPrincipals = none) := by
  cases hm : c.awsPrivateLink with
  | none => simp [generateClusterUpdate, hm]
  | some m =>
    simp only [generateClusterUpdate, hm]
    by_cases hnil : isAwsPrivateLinkStructNil (some m) = true
    · have hm2 : m.enabled = none ∧ m.connectConsole = none ∧
          m.allowedPrincipals = none := by
        simpa [isAwsPrivateLinkStructNil, Option.isNone_iff_eq_none, and_assoc]
          using hnil
      simp [hnil, hm2.1, hm2.2.1, hm2.2.2]
    · have hm2 : ¬(m.enabled = none ∧ m.connectConsole = none ∧
          m.allowedPrincipals = none) := by
        intro hcon
        exact hnil (by simp [isAwsPrivateLinkStructNil, Option.isNone_iff_eq_none,
          hcon.1, hcon.2.1, hcon.2.2])
      simp [hnil]
      tauto

/-- C2: a backend cluster whose aws_private_link block is present but all-default
(enabled=false, connect_console=false, no allowed principals) produces through
`generateModel` exactly the same model as the identical cluster with the block entirely
absent, and that model carries an absent block; a backend block with enabled=true is
never collapsed to absent. -/
theorem generateModel_awsAllDefault_collapse :
    (∀ (cfg : models.Cluster) (c : cp.Cluster) (apl : cp.AWSPrivateLinkStatus),
       apl.enabled = false → apl.connectConsole = false →
       goLen apl.allowedPrincipals = 0 →
       generateModel cfg { c with awsPrivateLink := some apl } =
         generateModel cfg { c with awsPrivateLink := none } ∧
       (generateModel cfg { c with awsPrivateLink := some apl }).awsPrivateLink =
         none) ∧
    (∀ (cfg : models.Cluster) (c : cp.Cluster) (apl : cp.AWSPrivateLinkStatus),
       c.awsPrivateLink = some apl → apl.enabled = true →
       (generateModel cfg c).awsPrivateLink ≠ none) := by
  constructor
  · intro cfg c apl h1 h2 h3
    have hnil : isAwsPrivateLinkSpecNil (some apl) = true := by
      simp [isAwsPrivateLinkSpecNil, h1, h2, h3]
    constructor
    · simp [generateModel, hnil]
    · simp [generateModel, hnil]
  · intro cfg c apl hc he
    have hnil : isAwsPrivateLinkSpecNil (some apl) = false := by
      simp [isAwsPrivateLinkSpecNil, he]
    simp [generateModel, hc, hnil]

/-- Witness for C2: the collapse at an all-default backend block over concrete clusters,
and the kept block at a concrete enabled backend block. -/
theorem generateModel_awsAllDefault_collapse_witness :
    (generateModel emptyClusterModel
        { baseBackendCluster with awsPrivateLink := some allDefaultAwsStatus } =
      generateModel emptyClusterModel
        { baseBackendCluster with awsPrivateLink := none }) ∧
    (generateModel emptyClusterModel backendWithAws).awsPrivateLink ≠ none := by
  constructor
  · exact (generateModel_awsAllDefault_collapse.1 emptyClusterModel baseBackendCluster
      allDefaultAwsStatus rfl rfl rfl).1
  · exact generateModel_awsAllDefault_collapse.2 emptyClusterModel backendWithAws
      enabledAwsStatus rfl rfl

/-- C7: whenever `generateModel` keeps an aws_private_link (resp. azure_private_link)
block, the allowed-principals (resp. allowed-subscriptions) list of the output block is
never null, and a backend block with no elements yields an explicit empty list. -/
theorem generateModel_kept_lists_nonnull :
    (∀ (cfg : models.Cluster) (c : cp.Cluster) (s : cp.AWSPrivateLinkStatus),
       c.awsPrivateLink = some s → isAwsPrivateLinkSpecNil (some s) = false →
       ∃ b, (generateModel cfg c).awsPrivateLink = some b ∧
         b.allowedPrincipals ≠ none ∧
         (goLen s.allowedPrincipals = 0 → b.allowedPrincipals = some [])) ∧
    (∀ (cfg : models.Cluster) (c : cp.Cluster) (s : cp.AzurePrivateLinkStatus),
       c.azurePrivateLink = some s → isAzurePrivateLinkSpecNil (some s) = false →
       ∃ b, (generateModel cfg c).azurePrivateLink = some b ∧
         b.allowedSubscriptions ≠ none ∧
         (goLen s.allowedSubscriptions = 0 → b.allowedSubscriptions = some [])) := by
  constructor
  · intro cfg c s hc hnil
    cases hap : s.allowedPrincipals with
    | none =>
      refine ⟨{ enabled := some s.enabled, connectConsole := some s.connectConsole,
                allowedPrincipals := some [] }, ?_, by simp, fun _ => rfl⟩
      simp [generateModel, hc, hnil, hap, StringSliceToTypeList]
    | some xs =>
      refine ⟨{ enabled := some s.enabled, connectConsole := some s.connectConsole,
                allowedPrincipals := some xs }, ?_, by simp, ?_⟩
      · simp [generateModel, hc, hnil, hap, StringSliceToTypeList]
      · intro h0
        have hx : xs = [] := List.length_eq_zero.mp (by simpa [goLen, hap] using h0)
        simp [hx]
  · intro cfg c s hc hnil
    cases hap : s.allowedSubscriptions with
    | none =>
      refine ⟨{ enabled := some s.enabled, connectConsole := some s.connectConsole,
                allowedSubscriptions := some [] }, ?_, by simp, fun _ => rfl⟩
      simp [generateModel, hc, hnil, hap, StringSliceToTypeList]
    | some xs =>
      refine ⟨{ enabled := some s.enabled, connectConsole := some s.connectConsole,
                allowedSubscriptions := some xs }, ?_, by simp, ?_⟩
      · simp [generateModel, hc, hnil, hap, StringSliceToTypeList]
      · intro h0
        have hx : xs = [] := List.length_eq_zero.mp (by simpa [goLen, hap] using h0)
        simp [hx]

/-- Witness for C7: concrete enabled aws and azure blocks with nil backend lists are kept
with explicit empty lists. -/
theorem generateModel_kept_lists_nonnull_witness :
    (∃ b, (generateModel emptyClusterModel backendWithAws).awsPrivateLink = some b ∧
      b.allowedPrincipals ≠ none ∧
      (goLen enabledAwsStatus.allowedPrincipals = 0 →
        b.allowedPrincipals = some [])) ∧
    (∃ b, (generateModel emptyClusterModel backendWithAzure).azurePrivateLink = some b ∧
      b.allowedSubscriptions ≠ none ∧
      (goLen enabledAzureStatus.allowedSubscriptions = 0 →
        b.allowedSubscriptions = some [])) := by
  constructor
  · exact generateModel_kept_lists_nonnull.1 emptyClusterModel backendWithAws
      enabledAwsStatus rfl rfl
  · exact generateModel_kept_lists_nonnull.2 emptyClusterModel backendWithAzure
      enabledAzureStatus rfl rfl

/-- C6: for every plan and state, the produced UpdateClusterRequest carries the plan's
identifier in its Cluster payload, and the identifier path is never an entry of the
update mask. -/
theorem generateUpdateRequest_id_never_masked (plan state : models.Cluster) :
    (generateUpdateRequest plan state).cluster.id = valueString plan.id ∧
    "id" ∉ (generateUpdateRequest plan state).updateMask := by
  constructor
  · rfl
  · intro h
    simp only [generateUpdateRequest, GenerateProtobufDiffAndUpdateMask,
      List.mem_append] at h
    rcases h with ((((((h | h) | h) | h) | h) | h) | h) | h <;>
      (split at h <;> simp_all)

theorem loopTerminalResult_ne_timeout (o : Operation) :
    loopTerminalResult o ≠ PollResult.timeout := by
  unfold loopTerminalResult
  split
  · split <;> simp
  · simp

theorem pollLoop_timeout_of_nonterminal (fetch : Nat → Except String Operation)
    (lat : Nat → Nat) (t : Nat)
    (hall : ∀ k, ∃ o, fetch k = Except.ok o ∧ CheckOpsState o = false) :
    ∀ (n k e : Nat), t < e + sleepInterval * n →
      ∃ c, pollLoop fetch lat t (n + 1) k e = some (PollResult.timeout, c) := by
  intro n
  induction n with
  | zero =>
    intro k e ht
    obtain ⟨o, hf, ho⟩ := hall k
    have hgt : t < e + lat k := by
      simp only [sleepInterval] at ht
      omega
    exact ⟨k + 1, by simp [pollLoop, hf, ho, hgt]⟩
  | succ n ih =>
    intro k e ht
    obtain ⟨o, hf, ho⟩ := hall k
    by_cases hgt : t < e + lat k
    · exact ⟨k + 1, by simp [pollLoop, hf, ho, hgt]⟩
    · obtain ⟨c, hc⟩ := ih (k + 1) (e + lat k + sleepInterval) (by
        simp only [sleepInterval] at ht ⊢
        omega)
      refine ⟨c, ?_⟩
      simpa [pollLoop, hf, ho, hgt] using hc

theorem pollLoop_timeout_sound (fetch : Nat → Except String Operation)
    (lat : Nat → Nat) (t : Nat) :
    ∀ (fuel k e c : Nat),
      pollLoop fetch lat t fuel k e = some (PollResult.timeout, c) →
      ∀ i, k ≤ i → i < c →
        ∃ o, fetch i = Except.ok o ∧ CheckOpsState o = false := by
  intro fuel
  induction fuel with
  | zero =>
    intro k e c h
    simp [pollLoop] at h
  | succ fuel ih =>
    intro k e c h i hki hic
    cases hf : fetch k with
    | error msg =>
      simp [pollLoop, hf] at h
    | ok o =>
      by_cases ho : CheckOpsState o = true
      · simp [pollLoop, hf, ho] at h
        exact absurd h.1 (loopTerminalResult_ne_timeout o)
      · by_cases hgt : e + lat k > t
        · simp [pollLoop, hf, ho, hgt] at h
          have hik : i = k := by omega
          exact hik ▸ ⟨o, hf, by simpa using ho⟩
        · have h2 : pollLoop fetch lat t fuel (k + 1)
              (e + lat k + sleepInterval) = some (PollResult.timeout, c) := by
            simpa [pollLoop, hf, ho, hgt] using h
          rcases Nat.lt_or_ge i (k + 1) with hlt | hge
          · have hik : i = k := by omega
            exact hik ▸ ⟨o, hf, by simpa using ho⟩
          · exact ih (k + 1) _ c h2 i hge hic

/-- C5: over every execution of `AreWeDoneYet` in which every fetched operation remains
non-terminal, the call returns a timeout error once the elapsed wall-clock time exceeds
the timeout argument (fixed sleeps alone push elapsed past any timeout below
`sleepInterval * n` within `n + 1` iterations); a timeout result is only ever produced
from runs in which every operation fetched before it was non-terminal; and between two
successive polls the loop advances the elapsed clock by exactly the fixed
`sleepInterval` beyond the fetch latency. -/
theorem areWeDoneYet_timeout_behavior :
    (∀ (op : Operation) (fetch : Nat → Except String Operation) (lat : Nat → Nat)
       (t n : Nat),
       CheckOpsState op = false →
       (∀ k, ∃ o, fetch k = Except.ok o ∧ CheckOpsState o = false) →
       t < sleepInterval * n →
       ∃ c, AreWeDoneYet op t fetch lat (n + 1) = some (PollResult.timeout, c)) ∧
    (∀ (fetch : Nat → Except String Operation) (lat : Nat → Nat) (t fuel k e c : Nat),
       pollLoop fetch lat t fuel k e = some (PollResult.timeout, c) →
       ∀ i, k ≤ i → i < c →
         ∃ o, fetch i = Except.ok o ∧ CheckOpsState o = false) ∧
    (∀ (fetch : Nat → Except String Operation) (lat : Nat → Nat) (t fuel k e : Nat)
       (o : Operation),
       fetch k = Except.ok o → CheckOpsState o = false → e + lat k ≤ t →
       pollLoop fetch lat t (fuel + 1) k e =
         pollLoop fetch lat t fuel (k + 1) (e + lat k + sleepInterval)) := by
  refine ⟨?_, ?_, ?_⟩
  · intro op fetch lat t n hop hall ht
    unfold AreWeDoneYet
    rw [if_neg (by simp [hop])]
    exact pollLoop_timeout_of_nonterminal fetch lat t hall n 0 0 (by simpa using ht)
  · exact pollLoop_timeout_sound
  · intro fetch lat t fuel k e o hf ho hle
    simp [pollLoop, hf, ho, Nat.not_lt.mpr hle]

/-- Witness for C5: an operation that stays RUNNING against a timeout of 15 seconds
reaches the timeout result within three iterations. -/
theorem areWeDoneYet_timeout_behavior_witness :
    ∃ c, AreWeDoneYet runningOp 15 (fun _ => Except.ok runningOp) (fun _ => 0) 3 =
      some (PollResult.timeout, c) :=
  areWeDoneYet_timeout_behavior.1 runningOp (fun _ => Except.ok runningOp)
    (fun _ => 0) 15 2 rfl (fun _ => ⟨runningOp, rfl, rfl⟩) (by decide)
